import Mathlib

/-!
Verification of the filter-expression language of this repository.

The embedding follows the source modules:
* `constants.py`  — operator enums (`ComparisonOp`, `CollectionOp`, `RangeOp`,
  `TextOp`, `LogicalOp`) and their `values()` tables;
* `models.py`     — the AST node variants (`FilterNode`);
* `grammar.py` / `parser.py` — the Lark LALR grammar with a contextual lexer.
  The parser is embedded as the deterministic recursive parser that the LALR
  automaton for this grammar realises: Lark resolves the shift/reduce
  conflicts of the ambiguous `logical_expr` rules in favour of shift, which
  on this grammar is exactly the right-recursive descent implemented below,
  and the contextual lexer recognises each keyword only in states where the
  LALR table accepts it;
* `transformers.py` — the inline transformer callbacks, invoked at each
  reduction (so a callback exception aborts the parse);
* `application.py` — the uncached (`parse_filters`) and cached
  (`optimized_parse_filters`) entry points; the module-level dict
  `_AST_CACHE` is made an explicit state parameter;
* `filters.py`    — `SQLAlchemyFilterBuilder.build_filter`, compiling an AST
  into a SQLAlchemy expression tree over a model with named columns.

Python doubles are modelled as exact rationals (`ℚ`): every numeric literal
the grammar admits denotes a finite decimal, and all literals appearing in
the claims are integers, where the two agree exactly.
-/

deriving instance DecidableEq for Except

namespace FilterSpec

/-! ### Character classes (Lark `common.lark` terminals, ASCII fragment) -/

/-- Whitespace accepted by Lark's `WS` terminal (`/\s+/`); the ASCII cases. -/
def isWS (c : Char) : Bool :=
  c = ' ' || c = '\t' || c = '\n' || c = '\r' || c = '\x0c' || c = '\x0b'

/-- First character of a `CNAME` token: `("_"|LETTER)`. -/
def isCnameStart (c : Char) : Bool :=
  c.isAlpha || c = '_'

/-- Continuation character of a `CNAME` token: `("_"|LETTER|DIGIT)`. -/
def isCnameChar (c : Char) : Bool :=
  c.isAlpha || c.isDigit || c = '_'

/-- Drop ignored whitespace before the next token (`%ignore WS`). -/
def skipWS : List Char → List Char
  | [] => []
  | c :: cs => if isWS c then skipWS cs else c :: cs

/-- Longest run of characters satisfying `p`, with the remainder. -/
def spanP (p : Char → Bool) : List Char → List Char × List Char
  | [] => ([], [])
  | c :: cs =>
    if p c then
      let (a, b) := spanP p cs
      (c :: a, b)
    else ([], c :: cs)

/-- Match a literal token (a Lark `PatternStr` terminal: no word boundary). -/
def takesLit : List Char → List Char → Option (List Char)
  | [], cs => some cs
  | _ :: _, [] => none
  | l :: ls, c :: cs => if c = l then takesLit ls cs else none

/-! ### Operator registry (`constants.py`) -/

/-- `ComparisonOp` enum. -/
inductive ComparisonOp
  | EQ | NEQ | GT | GTE | LT | LTE
  deriving DecidableEq

/-- `ComparisonOp.values()`. -/
def ComparisonOp.values : List String := ["eq", "neq", "gt", "gte", "lt", "lte"]

/-- `op in ComparisonOp.values()` combined with the constructor `ComparisonOp(op)`. -/
def ComparisonOp.ofString : String → Option ComparisonOp
  | "eq" => some .EQ
  | "neq" => some .NEQ
  | "gt" => some .GT
  | "gte" => some .GTE
  | "lt" => some .LT
  | "lte" => some .LTE
  | _ => none

/-- `CollectionOp` enum. -/
inductive CollectionOp
  | IN | NOT_IN
  deriving DecidableEq

/-- `CollectionOp.values()`. -/
def CollectionOp.values : List String := ["in", "not_in"]

/-- `op in CollectionOp.values()` combined with `CollectionOp(op)`. -/
def CollectionOp.ofString : String → Option CollectionOp
  | "in" => some .IN
  | "not_in" => some .NOT_IN
  | _ => none

/-- `RangeOp.values()`: the tuple `("between",)`. -/
def RangeOp.values : List String := ["between"]

/-- `TextOp` enum. -/
inductive TextOp
  | LIKE | ILIKE | CONTAINS
  deriving DecidableEq

/-- `TextOp.values()`. -/
def TextOp.values : List String := ["like", "ilike", "contains"]

/-- `op in TextOp.values()` combined with `TextOp(op)`. -/
def TextOp.ofString : String → Option TextOp
  | "like" => some .LIKE
  | "ilike" => some .ILIKE
  | "contains" => some .CONTAINS
  | _ => none

/-- `LogicalOp` enum. -/
inductive LogicalOp
  | AND | OR | NOT
  deriving DecidableEq

/-! ### Scalar values and AST nodes (`models.py`) -/

/-- A parsed scalar: a string (from `string_value`/`name_value`) or a number
(from `number_value`, a Python double modelled as an exact rational). -/
inductive Scalar
  | str (s : String)
  | num (q : ℚ)
  deriving DecidableEq

/-- Result of the `value_expr` reduction: `single_value_expr` yields a bare
scalar, `list_value_expr` yields `list(args)`. -/
inductive TValue
  | scalar (v : Scalar)
  | list (vs : List Scalar)
  deriving DecidableEq

/-- The AST node variants of `models.py`; `Range_Node.end` is `stop` here
because `end` is reserved in Lean. -/
inductive FilterNode
  | Comparison_Node (field : String) (operator : ComparisonOp) (value : TValue)
  | Collection_Node (field : String) (operator : CollectionOp) (values : List Scalar)
  | Range_Node (field : String) (start : Scalar) (stop : Scalar)
  | Text_Search_Node (field : String) (operator : TextOp) (pattern : String)
  | Logical_Node (operator : LogicalOp) (operands : List FilterNode)

mutual

/-- Structural equality of AST nodes is decidable (attrs-generated `__eq__`). -/
def FilterNode.decEqAux : (a b : FilterNode) → Decidable (a = b)
  | .Comparison_Node f1 o1 v1, .Comparison_Node f2 o2 v2 =>
    match decEq f1 f2, decEq o1 o2, decEq v1 v2 with
    | isTrue h1, isTrue h2, isTrue h3 => isTrue (by rw [h1, h2, h3])
    | isFalse h1, _, _ => isFalse (fun h => by cases h; exact h1 rfl)
    | _, isFalse h2, _ => isFalse (fun h => by cases h; exact h2 rfl)
    | _, _, isFalse h3 => isFalse (fun h => by cases h; exact h3 rfl)
  | .Collection_Node f1 o1 v1, .Collection_Node f2 o2 v2 =>
    match decEq f1 f2, decEq o1 o2, decEq v1 v2 with
    | isTrue h1, isTrue h2, isTrue h3 => isTrue (by rw [h1, h2, h3])
    | isFalse h1, _, _ => isFalse (fun h => by cases h; exact h1 rfl)
    | _, isFalse h2, _ => isFalse (fun h => by cases h; exact h2 rfl)
    | _, _, isFalse h3 => isFalse (fun h => by cases h; exact h3 rfl)
  | .Range_Node f1 a1 b1, .Range_Node f2 a2 b2 =>
    match decEq f1 f2, decEq a1 a2, decEq b1 b2 with
    | isTrue h1, isTrue h2, isTrue h3 => isTrue (by rw [h1, h2, h3])
    | isFalse h1, _, _ => isFalse (fun h => by cases h; exact h1 rfl)
    | _, isFalse h2, _ => isFalse (fun h => by cases h; exact h2 rfl)
    | _, _, isFalse h3 => isFalse (fun h => by cases h; exact h3 rfl)
  | .Text_Search_Node f1 o1 p1, .Text_Search_Node f2 o2 p2 =>
    match decEq f1 f2, decEq o1 o2, decEq p1 p2 with
    | isTrue h1, isTrue h2, isTrue h3 => isTrue (by rw [h1, h2, h3])
    | isFalse h1, _, _ => isFalse (fun h => by cases h; exact h1 rfl)
    | _, isFalse h2, _ => isFalse (fun h => by cases h; exact h2 rfl)
    | _, _, isFalse h3 => isFalse (fun h => by cases h; exact h3 rfl)
  | .Logical_Node o1 l1, .Logical_Node o2 l2 =>
    match decEq o1 o2, FilterNode.decEqListAux l1 l2 with
    | isTrue h1, isTrue h2 => isTrue (by rw [h1, h2])
    | isFalse h1, _ => isFalse (fun h => by cases h; exact h1 rfl)
    | _, isFalse h2 => isFalse (fun h => by cases h; exact h2 rfl)
  | .Comparison_Node .., .Collection_Node .. => isFalse (fun h => by cases h)
  | .Comparison_Node .., .Range_Node .. => isFalse (fun h => by cases h)
  | .Comparison_Node .., .Text_Search_Node .. => isFalse (fun h => by cases h)
  | .Comparison_Node .., .Logical_Node .. => isFalse (fun h => by cases h)
  | .Collection_Node .., .Comparison_Node .. => isFalse (fun h => by cases h)
  | .Collection_Node .., .Range_Node .. => isFalse (fun h => by cases h)
  | .Collection_Node .., .Text_Search_Node .. => isFalse (fun h => by cases h)
  | .Collection_Node .., .Logical_Node .. => isFalse (fun h => by cases h)
  | .Range_Node .., .Comparison_Node .. => isFalse (fun h => by cases h)
  | .Range_Node .., .Collection_Node .. => isFalse (fun h => by cases h)
  | .Range_Node .., .Text_Search_Node .. => isFalse (fun h => by cases h)
  | .Range_Node .., .Logical_Node .. => isFalse (fun h => by cases h)
  | .Text_Search_Node .., .Comparison_Node .. => isFalse (fun h => by cases h)
  | .Text_Search_Node .., .Collection_Node .. => isFalse (fun h => by cases h)
  | .Text_Search_Node .., .Range_Node .. => isFalse (fun h => by cases h)
  | .Text_Search_Node .., .Logical_Node .. => isFalse (fun h => by cases h)
  | .Logical_Node .., .Comparison_Node .. => isFalse (fun h => by cases h)
  | .Logical_Node .., .Collection_Node .. => isFalse (fun h => by cases h)
  | .Logical_Node .., .Range_Node .. => isFalse (fun h => by cases h)
  | .Logical_Node .., .Text_Search_Node .. => isFalse (fun h => by cases h)

/-- Decidable equality of operand lists. -/
def FilterNode.decEqListAux : (a b : List FilterNode) → Decidable (a = b)
  | [], [] => isTrue rfl
  | [], _ :: _ => isFalse (fun h => by cases h)
  | _ :: _, [] => isFalse (fun h => by cases h)
  | x :: xs, y :: ys =>
    match FilterNode.decEqAux x y, FilterNode.decEqListAux xs ys with
    | isTrue h1, isTrue h2 => isTrue (by rw [h1, h2])
    | isFalse h1, _ => isFalse (fun h => by cases h; exact h1 rfl)
    | _, isFalse h2 => isFalse (fun h => by cases h; exact h2 rfl)

end

instance : DecidableEq FilterNode := FilterNode.decEqAux

/-! ### Python value rendering (`str(value)` in the `TextOp` branch) -/

/-- Value of a digit run, most significant first. -/
def digitsToNat (ds : List Char) : ℕ :=
  ds.foldl (fun a c => a * 10 + (c.toNat - 48)) 0

/-- Least `k ≤ 500` with `den ∣ 10 ^ k`; exists for every denominator a
parsed decimal literal can produce. -/
def pow10Exp (den : ℕ) : Option ℕ :=
  (List.range 501).find? (fun k => den ∣ 10 ^ k)

/-- Left-pad a digit string with zeros to width `k`. -/
def padZeros (s : String) (k : ℕ) : String :=
  String.mk (List.replicate (k - s.length) '0') ++ s

/-- Python `str()` of a double, modelled on the exact rational: integral
values print as `n.0`, finite decimals print their shortest exact decimal
expansion (which is Python's shortest round-trip form for the literals the
grammar produces). -/
def pyFloatRepr (q : ℚ) : String :=
  if q.den = 1 then toString q.num ++ ".0"
  else
    match pow10Exp q.den with
    | some k =>
      let sign := if q.num < 0 then "-" else ""
      let a : ℕ := q.num.natAbs * 10 ^ k / q.den
      sign ++ toString (a / 10 ^ k) ++ "." ++ padZeros (toString (a % 10 ^ k)) k
    | none => toString q.num ++ "/" ++ toString q.den

/-- Python `str()` of a scalar. -/
def pyStrScalar : Scalar → String
  | .str s => s
  | .num q => pyFloatRepr q

/-- Python `repr()` of a scalar, as used by `str` on a list; `\x27` is the
single-quote character. -/
def pyReprScalar : Scalar → String
  | .str s => "\x27" ++ s ++ "\x27"
  | .num q => pyFloatRepr q

/-- Python `str(value)` for a parsed value (a scalar or a list). -/
def pyStrTValue : TValue → String
  | .scalar v => pyStrScalar v
  | .list vs => "[" ++ String.intercalate ", " (vs.map pyReprScalar) ++ "]"

/-! ### Transformer callbacks (`transformers.py`) -/

/-- Errors a parse can surface: Lark's `UnexpectedToken` and
`UnexpectedCharacters` (`UnexpectedCharacters` is raised when no terminal of
the whole grammar matches at the failure point, `UnexpectedToken`
otherwise), and a `ValueError` raised by a transformer callback. Only the
`ValueError` payload (its message) is observable in the claims. -/
inductive PError
  | unexpectedToken
  | unexpectedCharacters
  | valueError (msg : String)
  deriving DecidableEq

/-- Python `==` between a `str` and a `tuple` is always `False`; this models
the test `op == cst.RangeOp.values()` in `comparison_expr`, which compares
the operator string with the tuple `("between",)`. -/
def pyEqStrTuple (_s : String) (_t : List String) : Bool := false

/-- `FilterTransformer.comparison_expr`: classify the operator token and
build the node, exactly as the source does (including the dead `Range`
branch guarded by `pyEqStrTuple`). -/
def comparisonExprCb (field : String) (op : String) (value : TValue) :
    Except PError FilterNode :=
  match ComparisonOp.ofString op with
  | some cop => .ok (.Comparison_Node field cop value)
  | none =>
    match CollectionOp.ofString op with
    | some colop =>
      let vs := match value with
        | .list vs => vs
        | .scalar v => [v]
      .ok (.Collection_Node field colop vs)
    | none =>
      if pyEqStrTuple op RangeOp.values then
        match value with
        | .list [a, b] => .ok (.Range_Node field a b)
        | _ => .error (.valueError "Between operator requires exactly two values")
      else
        match TextOp.ofString op with
        | some top => .ok (.Text_Search_Node field top (pyStrTValue value))
        | none => .error (.valueError ("Unknown operator: " ++ op))

/-- The reduction callbacks the parser invokes inline, as Lark does with
`Lark(GRAMMAR, parser="lalr", transformer=FilterTransformer())`. Only
`comparison_expr` can raise; `and_op`/`or_op` receive exactly the two
reduced sub-expressions and `not_op` exactly one. -/
structure Callbacks (α : Type) where
  comparison_expr : String → String → TValue → Except PError α
  and_op : α → α → α
  or_op : α → α → α
  not_op : α → α

/-- The `FilterTransformer` instance: `and_op`/`or_op`/`not_op` build
`Logical_Node(operator, list(args))`. -/
def FilterTransformer : Callbacks FilterNode :=
  ⟨comparisonExprCb,
   fun l r => .Logical_Node .AND [l, r],
   fun l r => .Logical_Node .OR [l, r],
   fun x => .Logical_Node .NOT [x]⟩

/-- Callbacks that only record grammar acceptance (Lark's default parse-tree
mode): no reduction can fail. Used to state what "matches the surface
grammar" means independently of `FilterTransformer`. -/
def TreeCallbacks : Callbacks Unit :=
  ⟨fun _ _ _ => .ok (), fun _ _ => (), fun _ _ => (), fun _ => ()⟩

/-! ### Terminal lexers (`grammar.py` terminals, Lark `common.lark`) -/

/-- The optional exponent part of a `NUMBER` token (`_EXP: ("e"|"E")
["+"|"-"] INT`): returns the matched characters and the remainder, or
consumes nothing when the exponent is incomplete (the regex backtracks). -/
def lexExpPart (cs : List Char) : List Char × List Char :=
  match cs with
  | c :: rest =>
    if c = 'e' || c = 'E' then
      match rest with
      | s :: r2 =>
        if s = '+' || s = '-' then
          let (ds, r3) := spanP Char.isDigit r2
          if ds.isEmpty then ([], cs) else (c :: s :: ds, r3)
        else
          let (ds, r3) := spanP Char.isDigit rest
          if ds.isEmpty then ([], cs) else (c :: ds, r3)
      | [] => ([], cs)
    else ([], cs)
  | [] => ([], cs)

/-- The `NUMBER` terminal (`FLOAT | INT` with `FLOAT: INT _EXP | DECIMAL
_EXP?`, `DECIMAL: INT "." INT? | "." INT`): longest match, returning the
token text and the remainder. -/
def lexNUMBERTok (cs : List Char) : Option (List Char × List Char) :=
  let (ip, r1) := spanP Char.isDigit cs
  match r1 with
  | '.' :: r =>
    let (fp, r2) := spanP Char.isDigit r
    if ip.isEmpty && fp.isEmpty then none
    else
      let (ex, r3) := lexExpPart r2
      some (ip ++ '.' :: fp ++ ex, r3)
  | _ =>
    if ip.isEmpty then none
    else
      let (ex, r3) := lexExpPart r1
      some (ip ++ ex, r3)

/-- `float(token)` on a `NUMBER` token, as an exact rational (mantissa and
signed power of ten combined with `Rat.divInt`). -/
def pyFloat (s : String) : ℚ :=
  let cs := s.toList
  let (ip, r1) := spanP Char.isDigit cs
  let (fp, r2) :=
    match r1 with
    | '.' :: r => spanP Char.isDigit r
    | _ => ([], r1)
  let (en, eds) :=
    match r2 with
    | 'e' :: '-' :: r => (true, (spanP Char.isDigit r).1)
    | 'e' :: '+' :: r => (false, (spanP Char.isDigit r).1)
    | 'e' :: r => (false, (spanP Char.isDigit r).1)
    | 'E' :: '-' :: r => (true, (spanP Char.isDigit r).1)
    | 'E' :: '+' :: r => (false, (spanP Char.isDigit r).1)
    | 'E' :: r => (false, (spanP Char.isDigit r).1)
    | _ => (false, [])
  let mant : ℤ := (digitsToNat (ip ++ fp) : ℤ)
  let ev : ℤ := (if en then -(digitsToNat eds : ℤ) else (digitsToNat eds : ℤ)) - (fp.length : ℤ)
  if 0 ≤ ev then Rat.divInt (mant * ((10 ^ ev.toNat : ℕ) : ℤ)) 1
  else Rat.divInt mant ((10 ^ (-ev).toNat : ℕ) : ℤ)

/-- Body scan of an `ESCAPED_STRING` token after the opening quote: the
contents match `/.*?/` up to the first quote not preceded by an odd run of
backslashes, with `.` not matching a newline. Returns the raw inner
characters (escapes are not processed) and the remainder after the closing
quote. -/
def lexStringBody : List Char → Option (List Char × List Char)
  | [] => none
  | '"' :: rest => some ([], rest)
  | '\\' :: c2 :: rest =>
    if c2 = '\n' then none
    else
      match lexStringBody rest with
      | some (inner, r) => some ('\\' :: c2 :: inner, r)
      | none => none
  | '\\' :: [] => none
  | c :: rest =>
    if c = '\n' then none
    else
      match lexStringBody rest with
      | some (inner, r) => some (c :: inner, r)
      | none => none

/-- The `ESCAPED_STRING` terminal: the full token text (quotes included)
and the remainder. -/
def lexESCAPED (cs : List Char) : Option (String × List Char) :=
  match cs with
  | '"' :: rest =>
    match lexStringBody rest with
    | some (inner, r) => some (String.mk ('"' :: inner ++ ['"']), r)
    | none => none
  | _ => none

/-- `value.startswith(x27)` for the quote character, over the character
list (Lean's extern string primitives do not reduce in the kernel). -/
def quoteAtStart (cs : List Char) : Bool :=
  match cs with
  | '"' :: _ => true
  | _ => false

/-- `value.endswith(x22)` for the quote character. -/
def quoteAtEnd (cs : List Char) : Bool :=
  match cs.getLast? with
  | some '"' => true
  | _ => false

/-- `FilterTransformer.string_value`: strip one leading and one trailing
quote when both are present (`value[1:-1]`), else return the raw token. -/
def string_value (tok : String) : String :=
  if quoteAtStart tok.toList && quoteAtEnd tok.toList then
    String.mk ((tok.toList.drop 1).dropLast)
  else tok

/-- The `OPERATOR` terminal alternatives, longest first (Lark sorts a
terminal's alternatives so the longest is tried first; ties keep grammar
order and never overlap). -/
def operatorLiterals : List String :=
  ["contains", "between", "not_in", "ilike", "like",
   "neq", "gte", "lte", "eq", "gt", "lt", "in"]

/-- Match the `OPERATOR` terminal at the head of the input. -/
def matchOperatorTok (cs : List Char) : Option (String × List Char) :=
  (operatorLiterals.filterMap
    (fun op => (takesLit op.toList cs).map (fun rest => (op, rest)))).head?

/-- Whether the root lexer (all terminals of the grammar) matches at this
position. When a contextual state's lexer fails, Lark retries with the root
lexer: a match turns the failure into `UnexpectedToken`, no match leaves it
as `UnexpectedCharacters`. The keyword terminals and `OPERATOR` match only
where `CNAME` does, so they add nothing here. -/
def rootLexable (cs : List Char) : Bool :=
  match cs with
  | [] => false
  | c :: _ =>
    isWS c || isCnameStart c || c = ':' || c = ',' ||
      (lexNUMBERTok cs).isSome || (lexESCAPED cs).isSome

/-! ### Contextual token readers (one per LALR lexer state family) -/

/-- Token at a logical-start state (input start, or just after `and`, `or`,
`not`): the state accepts `CNAME` and the `NOT` keyword, so the lexer
matches `CNAME` maximally and retypes the token to `NOT` exactly when its
text is `not` (Lark embeds the keyword in `CNAME` and retypes on a whole
match). `AND`/`OR` are not accepted in these states and are never
recognized here. -/
inductive LStartTok
  | NOTKW
  | CNAMETok (s : String)

/-- Read the token at a logical-start state. -/
def lexLogicalStart (cs : List Char) : Except PError (LStartTok × List Char) :=
  let cs := skipWS cs
  match cs with
  | [] => .error .unexpectedToken
  | c :: _ =>
    if isCnameStart c then
      let (name, rest) := spanP isCnameChar cs
      if String.mk name = "not" then .ok (.NOTKW, rest)
      else .ok (.CNAMETok (String.mk name), rest)
    else if rootLexable cs then .error .unexpectedToken
    else .error .unexpectedCharacters

/-- Read the `":"` token (the only terminal accepted after a field or after
an operator). -/
def expectColon (cs : List Char) : Except PError (List Char) :=
  let cs := skipWS cs
  match cs with
  | ':' :: rest => .ok rest
  | [] => .error .unexpectedToken
  | _ => if rootLexable cs then .error .unexpectedToken else .error .unexpectedCharacters

/-- Read the `OPERATOR` token (the only terminal accepted after the first
colon). -/
def lexOperatorTok (cs : List Char) : Except PError (String × List Char) :=
  let cs := skipWS cs
  match matchOperatorTok cs with
  | some (op, rest) => .ok (op, rest)
  | none =>
    match cs with
    | [] => .error .unexpectedToken
    | _ => if rootLexable cs then .error .unexpectedToken else .error .unexpectedCharacters

/-- Read one `single_value` token (value states accept `ESCAPED_STRING`,
`NUMBER` and `CNAME`; keywords are not accepted there and lex as `CNAME`),
applying the matching transformer callback (`string_value`, `number_value`
= `float`, `name_value` = `str`). -/
def lexSingleValue (cs : List Char) : Except PError (Scalar × List Char) :=
  let cs := skipWS cs
  match cs with
  | [] => .error .unexpectedToken
  | c :: _ =>
    if c = '"' then
      match lexESCAPED cs with
      | some (tok, rest) => .ok (.str (string_value tok), rest)
      | none => if rootLexable cs then .error .unexpectedToken else .error .unexpectedCharacters
    else if isCnameStart c then
      let (name, rest) := spanP isCnameChar cs
      .ok (.str (String.mk name), rest)
    else
      match lexNUMBERTok cs with
      | some (tok, rest) => .ok (.num (pyFloat (String.mk tok)), rest)
      | none => if rootLexable cs then .error .unexpectedToken else .error .unexpectedCharacters

/-- Values following the first one in a `list_value_expr`: each iteration
shifts a `","` and one `single_value`. `fuel` dominates the remaining input
length, so it never runs out before the comma run does. -/
def parseValueTail (fuel : Nat) (acc : List Scalar) (cs : List Char) :
    Except PError (List Scalar × List Char) :=
  match fuel with
  | 0 => .error .unexpectedCharacters
  | fuel + 1 =>
    match skipWS cs with
    | ',' :: rest =>
      match lexSingleValue rest with
      | .error e => .error e
      | .ok (v, rest2) => parseValueTail fuel (acc ++ [v]) rest2
    | other => .ok (acc, other)

/-- The `value_expr` reduction: a lone value becomes `single_value_expr`
(the bare scalar), two or more become `list_value_expr` (`list(args)`). -/
def parseValueExpr (fuel : Nat) (cs : List Char) : Except PError (TValue × List Char) :=
  match lexSingleValue cs with
  | .error e => .error e
  | .ok (v, rest) =>
    match parseValueTail fuel [] rest with
    | .error e => .error e
    | .ok ([], rest2) => .ok (.scalar v, rest2)
    | .ok (vs, rest2) => .ok (.list (v :: vs), rest2)

/-- Lookahead after a complete `value_expr`: the state accepts only the
`AND` and `OR` keywords and end of input (`","` was consumed by the value
loop). The keywords are literal matches without word boundaries. -/
inductive AfterTok
  | EOFTok
  | ANDTok
  | ORTok

/-- Read the lookahead token after a complete comparison. -/
def lexAfterValue (cs : List Char) : Except PError (AfterTok × List Char) :=
  let cs := skipWS cs
  match cs with
  | [] => .ok (.EOFTok, [])
  | _ =>
    match takesLit ("and".toList) cs with
    | some rest => .ok (.ANDTok, rest)
    | none =>
      match takesLit ("or".toList) cs with
      | some rest => .ok (.ORTok, rest)
      | none => if rootLexable cs then .error .unexpectedToken else .error .unexpectedCharacters

/-! ### The parser (`parser.py`: Lark LALR, contextual lexer, inline
transformer)

Lark resolves every shift/reduce conflict of the ambiguous `logical_expr`
rules in favour of shift, so on this grammar the automaton parses exactly
the right-recursive refinement `E := "not" E | comparison (("and"|"or")
E)?`: `and` and `or` chains associate to the right and `not` extends over
the whole following chain. Each `comparison_expr` reduction (and hence its
transformer callback, which can raise) fires once the lookahead after its
value list has been read, before the right-hand side is parsed. -/

/-- One step of the LALR parse: `fuel` bounds the recursion depth; every
recursive call happens after consuming at least one character, so
`input.length + 1` is always enough and the fuel-exhaustion branch is
unreachable from `runParser`. -/
def parseLogical {α : Type} (cb : Callbacks α) : Nat → List Char →
    Except PError (α × List Char)
  | 0, _ => .error .unexpectedCharacters
  | fuel + 1, cs =>
    match lexLogicalStart cs with
    | .error e => .error e
    | .ok (.NOTKW, rest) =>
      match parseLogical cb fuel rest with
      | .error e => .error e
      | .ok (operand, rest2) => .ok (cb.not_op operand, rest2)
    | .ok (.CNAMETok fieldName, rest) =>
      match expectColon rest with
      | .error e => .error e
      | .ok rest2 =>
        match lexOperatorTok rest2 with
        | .error e => .error e
        | .ok (opStr, rest3) =>
          match expectColon rest3 with
          | .error e => .error e
          | .ok rest4 =>
            match parseValueExpr fuel rest4 with
            | .error e => .error e
            | .ok (value, rest5) =>
              match lexAfterValue rest5 with
              | .error e => .error e
              | .ok (.EOFTok, rest6) =>
                match cb.comparison_expr fieldName opStr value with
                | .error e => .error e
                | .ok node => .ok (node, rest6)
              | .ok (.ANDTok, rest6) =>
                match cb.comparison_expr fieldName opStr value with
                | .error e => .error e
                | .ok node =>
                  match parseLogical cb fuel rest6 with
                  | .error e => .error e
                  | .ok (rhs, rest7) => .ok (cb.and_op node rhs, rest7)
              | .ok (.ORTok, rest6) =>
                match cb.comparison_expr fieldName opStr value with
                | .error e => .error e
                | .ok node =>
                  match parseLogical cb fuel rest6 with
                  | .error e => .error e
                  | .ok (rhs, rest7) => .ok (cb.or_op node rhs, rest7)

/-- Run the parser on a whole input string (success always consumes the
whole input: the end-of-input token is matched inside `lexAfterValue`). -/
def runParser {α : Type} (cb : Callbacks α) (s : String) : Except PError α :=
  match parseLogical cb (s.length + 1) s.toList with
  | .ok (a, _) => .ok a
  | .error e => .error e

/-- `FilterParser.parse`: the strict entry point of `parser.py`. -/
def FilterParser.parse (s : String) : Except PError FilterNode :=
  runParser FilterTransformer s

/-- Whether the string matches the surface grammar (the parse with
non-failing tree callbacks succeeds, i.e. Lark accepts the token string
independently of `FilterTransformer`). -/
def grammarAccepts (s : String) : Bool :=
  match runParser TreeCallbacks s with
  | .ok _ => true
  | .error _ => false

/-! ### Application entry points (`queries/application/application.py`)

Python inputs need not be strings (`isinstance(filters_str, str)`), so the
input type distinguishes strings from everything else; the module-level
dict `_AST_CACHE` is threaded as explicit state. A result of `.ok`
models a normal return, `.error` models an uncaught exception escaping the
function (only `lark.exceptions.UnexpectedToken` is caught). -/

/-- A Python argument: a string, or any non-string value. -/
inductive PyInput
  | PyStr (s : String)
  | NonString
  deriving DecidableEq

/-- The `_AST_CACHE` dict: association list keyed by the raw source
string. -/
abbrev AstCache := List (String × FilterNode)

/-- Dict membership / subscript lookup. -/
def cacheLookup : AstCache → String → Option FilterNode
  | [], _ => none
  | (k, v) :: rest, s => if k = s then some v else cacheLookup rest s

/-- Dict assignment `_AST_CACHE[filters_str] = ast` (the key is always
absent at the assignment site). -/
def cacheInsert (c : AstCache) (k : String) (v : FilterNode) : AstCache :=
  (k, v) :: c

/-- `parse_filters`: the uncached entry point; builds a fresh
`FilterParser` and catches only `UnexpectedToken`. -/
def parse_filters : PyInput → Except PError (Option FilterNode)
  | .NonString => .ok none
  | .PyStr s =>
    if s = "" then .ok none
    else
      match FilterParser.parse s with
      | .ok ast => .ok (some ast)
      | .error .unexpectedToken => .ok none
      | .error e => .error e

/-- `optimized_parse_filters`: the cached entry point (`get_or_parse`),
returning the result and the updated `_AST_CACHE`. -/
def optimized_parse_filters (cache : AstCache) : PyInput →
    Except PError (Option FilterNode) × AstCache
  | .NonString => (.ok none, cache)
  | .PyStr s =>
    if s = "" then (.ok none, cache)
    else
      match cacheLookup cache s with
      | some ast => (.ok (some ast), cache)
      | none =>
        match FilterParser.parse s with
        | .ok ast => (.ok (some ast), cacheInsert cache s ast)
        | .error .unexpectedToken => (.ok none, cache)
        | .error e => (.error e, cache)

/-! ### Predicate compiler (`filters.py`: `SQLAlchemyFilterBuilder`) -/

/-- The SQLAlchemy expression objects the builder can produce: one
constructor per construction site in `filters.py` (`~x` and `not_(x)` both
negate and are modelled by `notE`). -/
inductive SAExpr
  | colEq (col : String) (value : TValue)
  | colNeq (col : String) (value : TValue)
  | colGt (col : String) (value : TValue)
  | colGte (col : String) (value : TValue)
  | colLt (col : String) (value : TValue)
  | colLte (col : String) (value : TValue)
  | colIn (col : String) (values : List Scalar)
  | colBetween (col : String) (start : Scalar) (stop : Scalar)
  | colLike (col : String) (pattern : String)
  | colIlike (col : String) (pattern : String)
  | colContains (col : String) (pattern : String)
  | andE (conditions : List SAExpr)
  | orE (conditions : List SAExpr)
  | notE (condition : SAExpr)

/-- Exceptions the builder can raise: `getattr(model, field)` on a missing
attribute raises `AttributeError` (the UnknownField condition of the spec),
and `not_(*conditions)` with other than one argument raises `TypeError`. -/
inductive CompileError
  | attributeError (field : String)
  | typeError
  deriving DecidableEq

/-- A queryable model: the set of attribute names `getattr` resolves; the
resolved column is identified by the field name. -/
abbrev Model := List String

/-- `getattr(model, node.field)`. -/
def getattrColumn (model : Model) (field : String) : Except CompileError String :=
  if field ∈ model then .ok field else .error (.attributeError field)

/-- The column attributes of the `Users` model (`models/application.py`),
plus its `resources` relationship attribute. -/
def UsersModel : Model :=
  ["id", "userid", "passwd", "surname", "forename", "telno", "addr1",
   "addr2", "city", "state", "postcode", "active", "admin", "resources"]

mutual

/-- `SQLAlchemyFilterBuilder.build_filter`: dispatch on the node variant
(the source dispatches on the runtime class name; the five names map
exactly onto the five variants, so the `Unsupported node type` branch is
unreachable) and build the SQLAlchemy expression. -/
def build_filter : FilterNode → Model → Except CompileError SAExpr
  | .Comparison_Node f op v, model =>
    match getattrColumn model f with
    | .error e => .error e
    | .ok column =>
      match op with
      | .EQ => .ok (.colEq column v)
      | .NEQ => .ok (.colNeq column v)
      | .GT => .ok (.colGt column v)
      | .GTE => .ok (.colGte column v)
      | .LT => .ok (.colLt column v)
      | .LTE => .ok (.colLte column v)
  | .Collection_Node f op vs, model =>
    match getattrColumn model f with
    | .error e => .error e
    | .ok column =>
      match op with
      | .IN => .ok (.colIn column vs)
      | .NOT_IN => .ok (.notE (.colIn column vs))
  | .Range_Node f a b, model =>
    match getattrColumn model f with
    | .error e => .error e
    | .ok column => .ok (.colBetween column a b)
  | .Text_Search_Node f op p, model =>
    match getattrColumn model f with
    | .error e => .error e
    | .ok column =>
      match op with
      | .LIKE => .ok (.colLike column p)
      | .ILIKE => .ok (.colIlike column p)
      | .CONTAINS => .ok (.colContains column p)
  | .Logical_Node op operands, model =>
    match build_filter_list operands model with
    | .error e => .error e
    | .ok conditions =>
      match op with
      | .AND => .ok (.andE conditions)
      | .OR => .ok (.orE conditions)
      | .NOT =>
        match conditions with
        | [c] => .ok (.notE c)
        | _ => .error .typeError

/-- The list comprehension `[self.build_filter(operand, model) for operand
in node.operands]`: left to right, first exception aborts. -/
def build_filter_list : List FilterNode → Model → Except CompileError (List SAExpr)
  | [], _ => .ok []
  | n :: ns, model =>
    match build_filter n model with
    | .error e => .error e
    | .ok c =>
      match build_filter_list ns model with
      | .error e => .error e
      | .ok cs => .ok (c :: cs)

end

/-! ### Structural invariants of parser output -/

mutual

/-- Every `Logical_Node` in the tree has exactly two operands under
`AND`/`OR` and exactly one under `NOT`. -/
def arityOK : FilterNode → Bool
  | .Comparison_Node _ _ _ => true
  | .Collection_Node _ _ _ => true
  | .Range_Node _ _ _ => true
  | .Text_Search_Node _ _ _ => true
  | .Logical_Node op operands =>
    (match op with
     | .AND => operands.length == 2
     | .OR => operands.length == 2
     | .NOT => operands.length == 1) && arityOKList operands

/-- `arityOK` on every element. -/
def arityOKList : List FilterNode → Bool
  | [] => true
  | n :: ns => arityOK n && arityOKList ns

end

mutual

/-- No node of the tree uses `not` as a field name. -/
def noNotField : FilterNode → Bool
  | .Comparison_Node f _ _ => !(f == "not")
  | .Collection_Node f _ _ => !(f == "not")
  | .Range_Node f _ _ => !(f == "not")
  | .Text_Search_Node f _ _ => !(f == "not")
  | .Logical_Node _ operands => noNotFieldList operands

/-- `noNotField` on every element. -/
def noNotFieldList : List FilterNode → Bool
  | [] => true
  | n :: ns => noNotField n && noNotFieldList ns

end

/-- A successful `comparison_expr` reduction yields a node with the given
field, correct logical arity (it contains no `Logical_Node` at all), and no
`not` field when the field is not `not`. -/
theorem comparisonExprCb_inv {f op : String} {v : TValue} {r : FilterNode}
    (h : comparisonExprCb f op v = .ok r) (hf : f ≠ "not") :
    arityOK r = true ∧ noNotField r = true := by
  unfold comparisonExprCb at h
  split at h
  · injection h with h2
    subst h2
    exact ⟨rfl, by simp [noNotField, hf]⟩
  · split at h
    · injection h with h2
      subst h2
      exact ⟨rfl, by simp [noNotField, hf]⟩
    · split at h
      · next hcontra => simp [pyEqStrTuple] at hcontra
      · split at h
        · injection h with h2
          subst h2
          exact ⟨rfl, by simp [noNotField, hf]⟩
        · exact absurd h (by simp)

/-- The logical-start lexer only produces a `CNAME` token whose text is not
`not` (a whole-token match is retyped to the `NOT` keyword). -/
theorem lexLogicalStart_cname {cs : List Char} {s : String} {rest : List Char}
    (h : lexLogicalStart cs = .ok (.CNAMETok s, rest)) : s ≠ "not" := by
  simp only [lexLogicalStart] at h
  split at h
  · exact absurd h (by simp)
  · split at h
    · split at h
      · exact absurd h (by simp)
      · next hne =>
        injection h with h2
        injection h2 with h3 h4
        injection h3 with h5
        subst h5
        exact hne
    · split at h <;> exact absurd h (by simp)

/-- Invariant of every successful parse with the `FilterTransformer`
callbacks: the resulting tree satisfies `arityOK` and `noNotField`.
Induction on the parser fuel. -/
theorem parseLogical_inv :
    ∀ (fuel : Nat) (cs : List Char) (r : FilterNode) (rest : List Char),
      parseLogical FilterTransformer fuel cs = .ok (r, rest) →
      arityOK r = true ∧ noNotField r = true := by
  intro fuel
  induction fuel with
  | zero =>
    intro cs r rest h
    simp [parseLogical] at h
  | succ fuel ih =>
    intro cs r rest h
    rw [parseLogical] at h
    split at h
    · exact absurd h (by simp)
    · -- NOT keyword: not_op over the recursively parsed operand
      split at h
      · exact absurd h (by simp)
      · next operand rest2 hrec =>
        injection h with h2
        injection h2 with h3 h4
        subst h3
        obtain ⟨ha, hn⟩ := ih _ _ _ hrec
        refine ⟨?_, ?_⟩
        · simp [FilterTransformer, arityOK, arityOKList, ha]
        · simp [FilterTransformer, noNotField, noNotFieldList, hn]
    · -- CNAME field: a comparison, optionally followed by and/or chain
      next fieldName rest1 hlex =>
      have hne : fieldName ≠ "not" := lexLogicalStart_cname hlex
      split at h
      · exact absurd h (by simp)
      · split at h
        · exact absurd h (by simp)
        · next opStr rest3 _ =>
          split at h
          · exact absurd h (by simp)
          · split at h
            · exact absurd h (by simp)
            · next value rest5 _ =>
              split at h
              · exact absurd h (by simp)
              · -- end of input: the comparison node itself
                split at h
                · exact absurd h (by simp)
                · next node hcb =>
                  injection h with h2
                  injection h2 with h3 h4
                  subst h3
                  exact comparisonExprCb_inv hcb hne
              · -- `and` lookahead
                split at h
                · exact absurd h (by simp)
                · next node hcb =>
                  split at h
                  · exact absurd h (by simp)
                  · next rhs rest7 hrec =>
                    injection h with h2
                    injection h2 with h3 h4
                    subst h3
                    obtain ⟨ha1, hn1⟩ := comparisonExprCb_inv hcb hne
                    obtain ⟨ha2, hn2⟩ := ih _ _ _ hrec
                    refine ⟨?_, ?_⟩
                    · simp [FilterTransformer, arityOK, arityOKList, ha1, ha2]
                    · simp [FilterTransformer, noNotField, noNotFieldList, hn1, hn2]
              · -- `or` lookahead
                split at h
                · exact absurd h (by simp)
                · next node hcb =>
                  split at h
                  · exact absurd h (by simp)
                  · next rhs rest7 hrec =>
                    injection h with h2
                    injection h2 with h3 h4
                    subst h3
                    obtain ⟨ha1, hn1⟩ := comparisonExprCb_inv hcb hne
                    obtain ⟨ha2, hn2⟩ := ih _ _ _ hrec
                    refine ⟨?_, ?_⟩
                    · simp [FilterTransformer, arityOK, arityOKList, ha1, ha2]
                    · simp [FilterTransformer, noNotField, noNotFieldList, hn1, hn2]

/-! ### Claim theorems -/

/-- C1: the claim says `age:between:18,65` parses to a Range node and
`age:between:18,65,70` fails with InvalidArity. In the code the Range test
`op == cst.RangeOp.values()` compares the operator string with a tuple and
is always false, so every `between` expression falls through to the
`Unknown operator` ValueError instead; this theorem evaluates the parser at
both inputs of the claim. -/
theorem between_expressions_raise_unknown_operator :
    FilterParser.parse "age:between:18,65" =
      .error (.valueError "Unknown operator: between")
    ∧ FilterParser.parse "age:between:18,65,70" =
      .error (.valueError "Unknown operator: between") := by
  exact ⟨by decide, by decide⟩

/-- C3: the claim says every string matching the surface grammar parses
successfully. `age:between:18,65` is accepted by the grammar (the parse
with non-failing tree callbacks succeeds) yet `parse` raises the
`Unknown operator` ValueError, because the dead Range branch makes the
`comparison_expr` reduction fail on `between`. -/
theorem grammar_accepts_between_but_parse_fails :
    grammarAccepts "age:between:18,65" = true
    ∧ FilterParser.parse "age:between:18,65" =
      .error (.valueError "Unknown operator: between") := by
  exact ⟨by decide, by decide⟩

/-- C2 counterexample: the claim says every parsing failure is swallowed
by `optimized_parse_filters`, but on a `between` expression the transformer
raises ValueError, which is not an `UnexpectedToken` and escapes the
function instead of returning None. -/
theorem optimized_parse_between_raises :
    (optimized_parse_filters [] (.PyStr "age:between:18,65,70")).1 =
      .error (.valueError "Unknown operator: between") := by
  decide

/-- C2 amended: `optimized_parse_filters` returns None on non-string and
empty inputs and on parses failing with `UnexpectedToken`; any other
parse-time exception (the transformer ValueError, or
`UnexpectedCharacters`) propagates to the caller. -/
theorem optimized_parse_swallows_only_unexpected_token
    (c : AstCache) (s : String) (hc : cacheLookup c s = none) :
    (optimized_parse_filters c .NonString).1 = .ok none
    ∧ (optimized_parse_filters c (.PyStr "")).1 = .ok none
    ∧ (FilterParser.parse s = .error .unexpectedToken →
        (optimized_parse_filters c (.PyStr s)).1 = .ok none)
    ∧ (∀ e : PError, FilterParser.parse s = .error e → e ≠ .unexpectedToken →
        s ≠ "" → (optimized_parse_filters c (.PyStr s)).1 = .error e) := by
  refine ⟨rfl, by simp [optimized_parse_filters], ?_, ?_⟩
  · intro hp
    by_cases hs : s = ""
    · subst hs; simp [optimized_parse_filters]
    · simp [optimized_parse_filters, hs, hc, hp]
  · intro e hp hne hs
    cases e with
    | unexpectedToken => exact absurd rfl hne
    | unexpectedCharacters => simp [optimized_parse_filters, hs, hc, hp]
    | valueError m => simp [optimized_parse_filters, hs, hc, hp]

/-- C2 witness: concrete instances of the amended behaviour. -/
theorem optimized_parse_swallows_only_unexpected_token_witness :
    (optimized_parse_filters [] (.PyStr "xx")).1 = .ok none
    ∧ (optimized_parse_filters [] (.PyStr "age:between:18,65")).1 =
      .error (.valueError "Unknown operator: between") :=
  ⟨(optimized_parse_swallows_only_unexpected_token [] "xx" rfl).2.2.1 (by decide),
   (optimized_parse_swallows_only_unexpected_token [] "age:between:18,65" rfl).2.2.2
     (.valueError "Unknown operator: between") (by decide) (by decide) (by decide)⟩

/-- C4 counterexample: the claim says any of `and`/`or`/`not` in the FIELD
position fails with SyntaxError, but `and:eq:Y` parses to a Comparison node
with field `and`: the contextual lexer accepts the `AND` keyword only in
states after a complete expression, never where a field can start. -/
theorem keyword_and_parses_as_field :
    FilterParser.parse "and:eq:Y" =
      .ok (.Comparison_Node "and" .EQ (.scalar (.str "Y"))) := by
  decide

/-- C4 amended: only `not` is excluded from the field position (no parsed
tree ever contains a field named `not`, and `not:eq:Y` fails with
UnexpectedToken), while `and` and `or` parse as ordinary field names. -/
theorem only_not_excluded_from_field_position :
    (∀ (s : String) (ast : FilterNode),
      FilterParser.parse s = .ok ast → noNotField ast = true)
    ∧ FilterParser.parse "not:eq:Y" = .error .unexpectedToken
    ∧ FilterParser.parse "and:eq:Y" =
      .ok (.Comparison_Node "and" .EQ (.scalar (.str "Y")))
    ∧ FilterParser.parse "or:eq:Y" =
      .ok (.Comparison_Node "or" .EQ (.scalar (.str "Y"))) := by
  refine ⟨?_, by decide, by decide, by decide⟩
  intro s ast h
  unfold FilterParser.parse runParser at h
  split at h
  · next a rest heq =>
    injection h with h2
    subst h2
    exact (parseLogical_inv _ _ _ _ heq).2
  · exact absurd h (by simp)

/-- C4 witness: the amended theorem at concrete inputs. -/
theorem only_not_excluded_from_field_position_witness :
    noNotField (.Comparison_Node "active" .EQ (.scalar (.str "Y"))) = true
    ∧ FilterParser.parse "not:eq:Y" = .error .unexpectedToken :=
  ⟨only_not_excluded_from_field_position.1 "active:eq:Y"
      (.Comparison_Node "active" .EQ (.scalar (.str "Y"))) (by decide),
   only_not_excluded_from_field_position.2.1⟩

/-- C5: Collection operators: a comma list parses to a Collection node
preserving the written order with numeric tokens as doubles, and at the
`comparison_expr` reduction a single scalar is wrapped into a one-element
list (for both `in` and `not_in`). -/
theorem collection_operators_build_value_lists :
    FilterParser.parse "id:in:1,2,3" =
      .ok (.Collection_Node "id" .IN [.num 1, .num 2, .num 3])
    ∧ (∀ (f : String) (vs : List Scalar),
        comparisonExprCb f "in" (.list vs) = .ok (.Collection_Node f .IN vs))
    ∧ (∀ (f : String) (vs : List Scalar),
        comparisonExprCb f "not_in" (.list vs) = .ok (.Collection_Node f .NOT_IN vs))
    ∧ (∀ (f : String) (v : Scalar),
        comparisonExprCb f "in" (.scalar v) = .ok (.Collection_Node f .IN [v]))
    ∧ (∀ (f : String) (v : Scalar),
        comparisonExprCb f "not_in" (.scalar v) = .ok (.Collection_Node f .NOT_IN [v])) := by
  refine ⟨by decide, ?_, ?_, ?_, ?_⟩ <;> intro f v <;> rfl

/-- C6 counterexample: the claim says a three-term `and` chain reduces
left-associatively; Lark resolves the shift/reduce conflicts of this
grammar as shift, so the chain is right-nested, not left-nested. -/
theorem three_term_and_chain_is_right_nested :
    FilterParser.parse "active:eq:Y and admin:eq:Y and city:eq:Rome" =
      .ok (.Logical_Node .AND [.Comparison_Node "active" .EQ (.scalar (.str "Y")),
        .Logical_Node .AND [.Comparison_Node "admin" .EQ (.scalar (.str "Y")),
          .Comparison_Node "city" .EQ (.scalar (.str "Rome"))]])
    ∧ FilterParser.parse "active:eq:Y and admin:eq:Y and city:eq:Rome" ≠
      .ok (.Logical_Node .AND
        [.Logical_Node .AND [.Comparison_Node "active" .EQ (.scalar (.str "Y")),
          .Comparison_Node "admin" .EQ (.scalar (.str "Y"))],
         .Comparison_Node "city" .EQ (.scalar (.str "Rome"))]) := by
  exact ⟨by decide, by decide⟩

/-- C6 amended: `and`/`or` chains have equal precedence and are
right-associative; each reduction builds a Logical node whose operands are
exactly the two reduced sub-nodes; the two-term example is as claimed and
mixed chains nest to the right whichever operator comes first. -/
theorem and_or_chains_right_associative :
    FilterParser.parse "active:eq:Y and admin:eq:Y" =
      .ok (.Logical_Node .AND [.Comparison_Node "active" .EQ (.scalar (.str "Y")),
        .Comparison_Node "admin" .EQ (.scalar (.str "Y"))])
    ∧ FilterParser.parse "active:eq:Y and admin:eq:Y and city:eq:Rome" =
      .ok (.Logical_Node .AND [.Comparison_Node "active" .EQ (.scalar (.str "Y")),
        .Logical_Node .AND [.Comparison_Node "admin" .EQ (.scalar (.str "Y")),
          .Comparison_Node "city" .EQ (.scalar (.str "Rome"))]])
    ∧ FilterParser.parse "active:eq:Y and admin:eq:Y or city:eq:Rome" =
      .ok (.Logical_Node .AND [.Comparison_Node "active" .EQ (.scalar (.str "Y")),
        .Logical_Node .OR [.Comparison_Node "admin" .EQ (.scalar (.str "Y")),
          .Comparison_Node "city" .EQ (.scalar (.str "Rome"))]])
    ∧ FilterParser.parse "active:eq:Y or admin:eq:Y and city:eq:Rome" =
      .ok (.Logical_Node .OR [.Comparison_Node "active" .EQ (.scalar (.str "Y")),
        .Logical_Node .AND [.Comparison_Node "admin" .EQ (.scalar (.str "Y")),
          .Comparison_Node "city" .EQ (.scalar (.str "Rome"))]]) := by
  exact ⟨by decide, by decide, by decide, by decide⟩

/-- C7: two calls of `optimized_parse_filters` with the identical string
(the second with the cache left by the first) return structurally equal
results, and a failing parse never inserts anything into the cache. -/
theorem cached_parse_consistent_and_no_negative_caching
    (c : AstCache) (s : String) :
    ((optimized_parse_filters c (.PyStr s)).1 =
      (optimized_parse_filters ((optimized_parse_filters c (.PyStr s)).2) (.PyStr s)).1)
    ∧ (∀ e : PError, FilterParser.parse s = .error e →
        (optimized_parse_filters c (.PyStr s)).2 = c) := by
  constructor
  · by_cases hs : s = ""
    · subst hs; simp [optimized_parse_filters]
    · cases hcl : cacheLookup c s with
      | some ast => simp [optimized_parse_filters, hs, hcl]
      | none =>
        cases hp : FilterParser.parse s with
        | ok ast =>
          simp [optimized_parse_filters, hs, hcl, hp, cacheInsert, cacheLookup]
        | error e =>
          cases e <;> simp [optimized_parse_filters, hs, hcl, hp]
  · intro e hp
    by_cases hs : s = ""
    · subst hs; simp [optimized_parse_filters]
    · cases hcl : cacheLookup c s with
      | some ast => simp [optimized_parse_filters, hs, hcl]
      | none => cases e <;> simp [optimized_parse_filters, hs, hcl, hp]

/-- C7 witness: the cache property at a concrete unparseable string. -/
theorem cached_parse_consistent_and_no_negative_caching_witness :
    ((optimized_parse_filters [] (.PyStr "xx")).1 =
      (optimized_parse_filters ((optimized_parse_filters [] (.PyStr "xx")).2)
        (.PyStr "xx")).1)
    ∧ (optimized_parse_filters [] (.PyStr "xx")).2 = [] :=
  ⟨(cached_parse_consistent_and_no_negative_caching [] "xx").1,
   (cached_parse_consistent_and_no_negative_caching [] "xx").2
     .unexpectedToken (by decide)⟩

/-- C8: compiling a Comparison node whose field the model does not expose
fails with the AttributeError from `getattr` (the UnknownField condition):
`build_filter` returns that error, never a predicate. -/
theorem missing_field_comparison_raises_attribute_error
    (f : String) (op : ComparisonOp) (v : TValue) (model : Model)
    (h : f ∉ model) :
    build_filter (.Comparison_Node f op v) model = .error (.attributeError f) := by
  unfold build_filter getattrColumn
  simp [h]

/-- C8 witness: the `Users` model has no `age` attribute. -/
theorem missing_field_comparison_raises_attribute_error_witness :
    build_filter (.Comparison_Node "age" .EQ (.scalar (.num 18))) UsersModel =
      .error (.attributeError "age") :=
  missing_field_comparison_raises_attribute_error "age" .EQ (.scalar (.num 18))
    UsersModel (by decide)

/-- C9 counterexample: the claim says both entry points return None on
every parser-rejected input, but on a `between` expression both raise the
transformer ValueError instead of returning None. -/
theorem entry_points_raise_rather_than_none_on_between :
    parse_filters (.PyStr "age:between:18,65") ≠ .ok none
    ∧ (optimized_parse_filters [] (.PyStr "age:between:18,65")).1 ≠ .ok none := by
  exact ⟨by decide, by decide⟩

/-- A cache state whose every entry is the parse of its key (the only
states `optimized_parse_filters` can reach from the initial empty dict). -/
def CacheConsistent (c : AstCache) : Prop :=
  ∀ (k : String) (ast : FilterNode),
    cacheLookup c k = some ast → FilterParser.parse k = .ok ast

/-- C9 amended: from any consistent cache the cached entry point returns
exactly what the uncached one returns on every input (equal ASTs on
success, None on empty/non-string/UnexpectedToken-rejected input, the same
propagated exception otherwise), and consistency is preserved. -/
theorem cached_and_uncached_agree (c : AstCache) (hc : CacheConsistent c)
    (inp : PyInput) :
    (optimized_parse_filters c inp).1 = parse_filters inp
    ∧ CacheConsistent (optimized_parse_filters c inp).2 := by
  cases inp with
  | NonString => exact ⟨rfl, hc⟩
  | PyStr s =>
    by_cases hs : s = ""
    · subst hs; exact ⟨by simp [optimized_parse_filters, parse_filters], hc⟩
    · cases hcl : cacheLookup c s with
      | some ast =>
        have hp := hc s ast hcl
        exact ⟨by simp [optimized_parse_filters, parse_filters, hs, hcl, hp], by
          simpa [optimized_parse_filters, hs, hcl] using hc⟩
      | none =>
        cases hp : FilterParser.parse s with
        | ok ast =>
          refine ⟨by simp [optimized_parse_filters, parse_filters, hs, hcl, hp], ?_⟩
          simp only [optimized_parse_filters, hs, if_false, hcl, hp]
          intro k a hk
          simp only [cacheInsert, cacheLookup] at hk
          by_cases hks : s = k
          · subst hks
            simp at hk
            subst hk
            exact hp
          · rw [if_neg hks] at hk
            exact hc k a hk
        | error e =>
          cases e <;>
            exact ⟨by simp [optimized_parse_filters, parse_filters, hs, hcl, hp],
              by simpa [optimized_parse_filters, hs, hcl, hp] using hc⟩

/-- C9 witness: agreement at a concrete input from the empty cache. -/
theorem cached_and_uncached_agree_witness :
    (optimized_parse_filters [] (.PyStr "active:eq:Y")).1 =
      parse_filters (.PyStr "active:eq:Y") :=
  (cached_and_uncached_agree []
    (by intro k a hk; simp [cacheLookup] at hk) (.PyStr "active:eq:Y")).1

/-- C10: every Logical node in a tree returned by `parse` has exactly two
operands under AND/OR and exactly one under NOT. -/
theorem parsed_logical_nodes_have_fixed_arity (s : String) (ast : FilterNode)
    (h : FilterParser.parse s = .ok ast) : arityOK ast = true := by
  unfold FilterParser.parse runParser at h
  split at h
  · next a rest heq =>
    injection h with h2
    subst h2
    exact (parseLogical_inv _ _ _ _ heq).1
  · exact absurd h (by simp)

/-- C10 witness: the arity invariant at a concrete parsed tree. -/
theorem parsed_logical_nodes_have_fixed_arity_witness :
    arityOK (.Logical_Node .NOT [.Logical_Node .AND
      [.Comparison_Node "active" .EQ (.scalar (.str "Y")),
       .Comparison_Node "admin" .EQ (.scalar (.str "N"))]]) = true :=
  parsed_logical_nodes_have_fixed_arity "not active:eq:Y and admin:eq:N"
    (.Logical_Node .NOT [.Logical_Node .AND
      [.Comparison_Node "active" .EQ (.scalar (.str "Y")),
       .Comparison_Node "admin" .EQ (.scalar (.str "N"))]]) (by decide)

end FilterSpec
